import Mathlib

/-!
Verification development for the provider-resolution and evaluation-setup core
of the promptfoo repository (files src/index.ts and src/providers.ts).

The TypeScript source is shallowly embedded: JavaScript runtime values that the
code inspects dynamically are modelled by the inductive type JsVal, the platform
builtins JSON.stringify, JSON.parse, String.prototype.split and
String.prototype.startsWith are modelled by executable Lean functions over that
type, and the network layer (fetchWithTimeout plus response.json) is abstracted
into an explicit transport outcome parameter of type Except String JsVal, since
the whole fetch happens inside one try block whose catch produces the transport
failure result.  Environment variables are an explicit Env record of optional
strings.  Fallible TypeScript code (throw / reject) is embedded as Except.

Modelling notes on the JSON builtins: JSON numbers are restricted to integer
literals (no fraction or exponent) and string escapes to the single-character
forms; none of the data exercised by the repository or by the claims uses the
omitted forms.
-/

/-- JavaScript truthiness of an optional string: undefined and the empty string
are falsy, every other string is truthy. -/
def truthyOpt : Option String → Bool
  | none => false
  | some s => s != ""

/-- Model of String.prototype.split with a single-character separator, on the
underlying character list. -/
def splitChar (sep : Char) : List Char → List (List Char)
  | [] => [[]]
  | c :: cs =>
    if c = sep then [] :: splitChar sep cs
    else
      match splitChar sep cs with
      | [] => [[c]]
      | h :: t => (c :: h) :: t

/-- Model of String.prototype.split with a single-character separator. -/
def jsSplit (sep : Char) (s : String) : List String :=
  (splitChar sep s.data).map String.mk

/-- Model of String.prototype.startsWith. -/
def jsStartsWith (pre s : String) : Bool :=
  List.isPrefixOf pre.data s.data

mutual

/-- JavaScript values as inspected by the embedded code: strings, integer
numbers, booleans, null, arrays and plain objects with ordered fields. -/
inductive JsVal where
  | str (s : String)
  | num (n : Int)
  | bool (b : Bool)
  | null
  | arr (xs : JsArr)
  | obj (fs : JsFields)

/-- Elements of a JavaScript array value. -/
inductive JsArr where
  | nil
  | cons (hd : JsVal) (tl : JsArr)

/-- Ordered key-value fields of a plain JavaScript object. -/
inductive JsFields where
  | nil
  | cons (k : String) (v : JsVal) (tl : JsFields)

end

/-- Conversion from a Lean list of values to a JavaScript array value. -/
def listToJsArr : List JsVal → JsArr
  | [] => .nil
  | v :: vs => .cons v (listToJsArr vs)

/-- Conversion from a JavaScript array value to a Lean list. -/
def JsArr.toList : JsArr → List JsVal
  | .nil => []
  | .cons v vs => v :: vs.toList

/-- First field with the given key, the value an object member access yields
(the embedded data never has duplicate keys). -/
def JsFields.lookup (k : String) : JsFields → Option JsVal
  | .nil => none
  | .cons k2 v tl => if k2 = k then some v else tl.lookup k

/-- Result of the typeof operator on an embedded value. -/
def jsTypeof : JsVal → String
  | .str _ => "string"
  | .num _ => "number"
  | .bool _ => "boolean"
  | .null => "object"
  | .arr _ => "object"
  | .obj _ => "object"

/-- JavaScript truthiness of an embedded value. -/
def jsTruthy : JsVal → Bool
  | .str s => s != ""
  | .num n => n != 0
  | .bool b => b
  | .null => false
  | .arr _ => true
  | .obj _ => true

/-- Lowercase hexadecimal digit, used for control-character escapes. -/
def hexDigit (n : Nat) : Char :=
  if n < 10 then Char.ofNat (48 + n) else Char.ofNat (87 + n)

/-- JSON.stringify escaping of one character inside a string literal. -/
def escChar (c : Char) : List Char :=
  if c = '"' then ['\\', '"']
  else if c = '\\' then ['\\', '\\']
  else if c = '\n' then ['\\', 'n']
  else if c = '\t' then ['\\', 't']
  else if c = '\r' then ['\\', 'r']
  else if c.toNat = 8 then ['\\', 'b']
  else if c.toNat = 12 then ['\\', 'f']
  else if c.toNat < 32 then
    ['\\', 'u', '0', '0', hexDigit (c.toNat / 16), hexDigit (c.toNat % 16)]
  else [c]

/-- JSON.stringify of a string value, quotes and escapes included. -/
def jsonQuote (s : String) : String :=
  "\"" ++ String.mk (s.data.map escChar).flatten ++ "\""

mutual

/-- Model of JSON.stringify on embedded values (the code only ever serializes
strings, numbers, booleans, arrays and plain objects). -/
def jsonStringify : JsVal → String
  | .str s => jsonQuote s
  | .num n => toString n
  | .bool b => if b then "true" else "false"
  | .null => "null"
  | .arr xs => "[" ++ jsonStringifyArr xs ++ "]"
  | .obj fs => "\x7b" ++ jsonStringifyFields fs ++ "\x7d"

/-- Comma-separated serialization of array elements. -/
def jsonStringifyArr : JsArr → String
  | .nil => ""
  | .cons v .nil => jsonStringify v
  | .cons v tl => jsonStringify v ++ "," ++ jsonStringifyArr tl

/-- Comma-separated serialization of object fields, in insertion order. -/
def jsonStringifyFields : JsFields → String
  | .nil => ""
  | .cons k v .nil => jsonQuote k ++ ":" ++ jsonStringify v
  | .cons k v tl => jsonQuote k ++ ":" ++ jsonStringify v ++ "," ++ jsonStringifyFields tl

end

/-- JSON whitespace skipping. -/
def skipWs : List Char → List Char
  | c :: cs => if c = ' ' || c = '\t' || c = '\n' || c = '\r' then skipWs cs else c :: cs
  | [] => []

/-- Body of a JSON string literal after the opening quote: decoded characters
plus the remaining input after the closing quote. -/
def parseStringBody : List Char → Option (List Char × List Char)
  | [] => none
  | '"' :: cs => some ([], cs)
  | '\\' :: e :: cs =>
    (match e with
     | '"' => some '"'
     | '\\' => some '\\'
     | '/' => some '/'
     | 'b' => some (Char.ofNat 8)
     | 'f' => some (Char.ofNat 12)
     | 'n' => some '\n'
     | 'r' => some '\r'
     | 't' => some '\t'
     | _ => none).bind fun d =>
      (parseStringBody cs).map fun (p : List Char × List Char) => (d :: p.1, p.2)
  | c :: cs => (parseStringBody cs).map fun (p : List Char × List Char) => (c :: p.1, p.2)

/-- Decimal digits prefix of the input. -/
def takeDigits : List Char → List Char × List Char
  | [] => ([], [])
  | c :: cs =>
    if c.isDigit then
      let p := takeDigits cs
      (c :: p.1, p.2)
    else ([], c :: cs)

/-- Numeric value of a list of decimal digits. -/
def digitsToNat : List Char → Nat
  | [] => 0
  | ds => ds.foldl (fun acc c => acc * 10 + (c.toNat - 48)) 0

/-- JSON integer literal (leading zeros, fractions and exponents rejected). -/
def parseIntLit : List Char → Option (Int × List Char)
  | '-' :: cs =>
    match takeDigits cs with
    | ([], _) => none
    | (ds, rest) =>
      if ds.length > 1 && ds.headD '0' = '0' then none
      else
        match rest with
        | '.' :: _ => none
        | 'e' :: _ => none
        | 'E' :: _ => none
        | _ => some (-(digitsToNat ds : Int), rest)
  | cs =>
    match takeDigits cs with
    | ([], _) => none
    | (ds, rest) =>
      if ds.length > 1 && ds.headD '0' = '0' then none
      else
        match rest with
        | '.' :: _ => none
        | 'e' :: _ => none
        | 'E' :: _ => none
        | _ => some ((digitsToNat ds : Int), rest)

mutual

/-- Fueled recursive-descent parser for one JSON value; the fuel only bounds
nesting of the mutual recursion and is supplied generously at the top level. -/
def parseVal : Nat → List Char → Option (JsVal × List Char)
  | 0, _ => none
  | Nat.succ f, cs =>
    match skipWs cs with
    | '"' :: cs2 => (parseStringBody cs2).map fun p => (.str (String.mk p.1), p.2)
    | '[' :: cs2 =>
      (match skipWs cs2 with
       | ']' :: r => some (.arr .nil, r)
       | cs3 => (parseElems f cs3).map fun p => (.arr p.1, p.2))
    | '\x7b' :: cs2 =>
      (match skipWs cs2 with
       | '\x7d' :: r => some (.obj .nil, r)
       | cs3 => (parseMembers f cs3).map fun p => (.obj p.1, p.2))
    | 't' :: 'r' :: 'u' :: 'e' :: r => some (.bool true, r)
    | 'f' :: 'a' :: 'l' :: 's' :: 'e' :: r => some (.bool false, r)
    | 'n' :: 'u' :: 'l' :: 'l' :: r => some (.null, r)
    | cs2 => (parseIntLit cs2).map fun p => (.num p.1, p.2)

/-- One or more comma-separated array elements up to the closing bracket. -/
def parseElems : Nat → List Char → Option (JsArr × List Char)
  | 0, _ => none
  | Nat.succ f, cs =>
    (parseVal f cs).bind fun p =>
      match skipWs p.2 with
      | ',' :: r2 => (parseElems f r2).map fun q => (.cons p.1 q.1, q.2)
      | ']' :: r2 => some (.cons p.1 .nil, r2)
      | _ => none

/-- One or more comma-separated object members up to the closing brace. -/
def parseMembers : Nat → List Char → Option (JsFields × List Char)
  | 0, _ => none
  | Nat.succ f, cs =>
    match skipWs cs with
    | '"' :: cs2 =>
      (parseStringBody cs2).bind fun kp =>
        match skipWs kp.2 with
        | ':' :: r2 =>
          (parseVal f r2).bind fun vp =>
            match skipWs vp.2 with
            | ',' :: r4 => (parseMembers f r4).map fun q => (.cons (String.mk kp.1) vp.1 q.1, q.2)
            | '\x7d' :: r4 => some (.cons (String.mk kp.1) vp.1 .nil, r4)
            | _ => none
        | _ => none
    | _ => none

end

/-- Model of JSON.parse: some value on success, none when JSON.parse would
throw (including trailing garbage after the value). -/
def jsonParse (s : String) : Option JsVal :=
  match parseVal (2 * s.data.length + 8) s.data with
  | some (v, rest) => if skipWs rest = [] then some v else none
  | none => none

/-- Environment variables the provider module reads (providers.ts): each is an
optional string, absent meaning the variable is unset. -/
structure Env where
  OPENAI_API_KEY : Option String
  OPENAI_API_HOST : Option String
  OPENAI_MAX_TOKENS : Option String
  OPENAI_TEMPERATURE : Option String
  OPENAI_MAX_TEMPERATURE : Option String

/-- Default API host constant DEFAULT_OPENAI_HOST of providers.ts. -/
def DEFAULT_OPENAI_HOST : String := "api.openai.com"

/-- Immutable state an OpenAiGenericProvider instance holds after construction:
the fields this.modelName, this.apiKey, this.apiHost. -/
structure OpenAiProviderState where
  modelName : String
  apiKey : String
  apiHost : String

/-- Message of the missing-credential construction error in providers.ts. -/
def apiKeyErrorMsg : String :=
  "OpenAI API key is not set. Set OPENAI_API_KEY environment variable or pass it as an argument to the constructor."

/-- Constructor of OpenAiGenericProvider: key is the argument if truthy else
the environment variable, a falsy key throws, host falls back to the default. -/
def OpenAiGenericProvider.new (modelName : String) (apiKey : Option String) (env : Env) :
    Except String OpenAiProviderState :=
  let key := if truthyOpt apiKey then apiKey else env.OPENAI_API_KEY
  if truthyOpt key then
    .ok { modelName := modelName
          apiKey := key.getD ""
          apiHost := if truthyOpt env.OPENAI_API_HOST then env.OPENAI_API_HOST.getD "" else DEFAULT_OPENAI_HOST }
  else
    .error apiKeyErrorMsg

/-- Method id() of OpenAiGenericProvider. -/
def OpenAiGenericProvider.id (st : OpenAiProviderState) : String :=
  "openai:" ++ st.modelName

/-- Static list OPENAI_COMPLETION_MODELS of OpenAiCompletionProvider. -/
def OpenAiCompletionProvider.OPENAI_COMPLETION_MODELS : List String :=
  ["text-davinci-003", "text-davinci-002", "text-curie-001", "text-babbage-001", "text-ada-001"]

/-- Static list OPENAI_CHAT_MODELS of OpenAiChatCompletionProvider. -/
def OpenAiChatCompletionProvider.OPENAI_CHAT_MODELS : List String :=
  ["gpt-4", "gpt-4-0314", "gpt-4-32k", "gpt-4-32k-0314", "gpt-3.5-turbo", "gpt-3.5-turbo-0301"]

/-- Constructor of OpenAiCompletionProvider: logger.warn output is returned as
a list of warning strings next to the constructed state (emitted even when the
superclass constructor then throws on a missing key, matching source order). -/
def OpenAiCompletionProvider.new (modelName : String) (apiKey : Option String) (env : Env) :
    Except String (List String × OpenAiProviderState) :=
  let warnings :=
    if OpenAiCompletionProvider.OPENAI_COMPLETION_MODELS.contains modelName then ([] : List String)
    else ["Using unknown OpenAI completion model: " ++ modelName]
  (OpenAiGenericProvider.new modelName apiKey env).map fun st => (warnings, st)

/-- Constructor of OpenAiChatCompletionProvider, analogous to the completion
variant. -/
def OpenAiChatCompletionProvider.new (modelName : String) (apiKey : Option String) (env : Env) :
    Except String (List String × OpenAiProviderState) :=
  let warnings :=
    if OpenAiChatCompletionProvider.OPENAI_CHAT_MODELS.contains modelName then ([] : List String)
    else ["Using unknown OpenAI chat model: " ++ modelName]
  (OpenAiGenericProvider.new modelName apiKey env).map fun st => (warnings, st)

/-- A resolved ApiProvider value: one of the two OpenAI families, or an
instance of a dynamically imported custom provider class, identified by the
string its own id() method returns. -/
inductive ApiProvider where
  | openaiChat (st : OpenAiProviderState)
  | openaiCompletion (st : OpenAiProviderState)
  | custom (cid : String)

/-- Method id() of whichever concrete provider class the value carries. -/
def ApiProvider.id : ApiProvider → String
  | .openaiChat st => OpenAiGenericProvider.id st
  | .openaiCompletion st => OpenAiGenericProvider.id st
  | .custom cid => cid

/-- JavaScript or-default on an optional string: the value when truthy,
otherwise the default (modelName || defaultModel in loadApiProvider). -/
def jsOrDefault (v : Option String) (d : String) : String :=
  match v with
  | some s => if s = "" then d else s
  | none => d

/-- Suffix of the unknown-model-type error message in loadApiProvider. -/
def unknownModelHint : String :=
  ". Use one of the following providers: openai:chat:<model name>, openai:completion:<model name>"

/-- Function loadApiProvider of providers.ts.  The custom-module branch
(dynamic import at a filesystem path, then new on the default export) is
abstracted by the modules parameter: its error is propagated unmodified and
its provider is returned with no warnings logged.  The result pairs the
warnings logger.warn received with the constructed provider. -/
def loadApiProvider (env : Env) (modules : String → Except String ApiProvider)
    (providerPath : String) : Except String (List String × ApiProvider) :=
  if jsStartsWith "openai:" providerPath then
    let options := jsSplit ':' providerPath
    let modelType := options[1]?
    let modelName := options[2]?
    if modelType = some "chat" then
      (OpenAiChatCompletionProvider.new (jsOrDefault modelName "gpt-3.5-turbo") none env).map
        fun wst => (wst.1, ApiProvider.openaiChat wst.2)
    else if modelType = some "completion" then
      (OpenAiCompletionProvider.new (jsOrDefault modelName "text-davinci-003") none env).map
        fun wst => (wst.1, ApiProvider.openaiCompletion wst.2)
    else
      match modelType with
      | some t =>
        if OpenAiChatCompletionProvider.OPENAI_CHAT_MODELS.contains t then
          (OpenAiChatCompletionProvider.new t none env).map
            fun wst => (wst.1, ApiProvider.openaiChat wst.2)
        else if OpenAiCompletionProvider.OPENAI_COMPLETION_MODELS.contains t then
          (OpenAiCompletionProvider.new t none env).map
            fun wst => (wst.1, ApiProvider.openaiCompletion wst.2)
        else
          .error ("Unknown OpenAI model type: " ++ t ++ unknownModelHint)
      | none =>
        .error ("Unknown OpenAI model type: undefined" ++ unknownModelHint)
  else
    (modules providerPath).map fun a => (([] : List String), a)

/-- A request-payload field the source fills with env-var-or-number-default:
the string value of the variable when truthy, else the numeric default. -/
inductive JsStrNum where
  | s (v : String)
  | n (v : Nat)
deriving DecidableEq

/-- JavaScript or-default giving the env string when truthy else the number
(process.env.X || d). -/
def jsEnvOr (v : Option String) (d : Nat) : JsStrNum :=
  match v with
  | some x => if x = "" then .n d else .s x
  | none => .n d

/-- Request body the completion variant posts (body literal in
OpenAiCompletionProvider.callApi). -/
structure CompletionRequestBody where
  model : String
  prompt : String
  max_tokens : JsStrNum
  temperature : JsStrNum
deriving DecidableEq

/-- Body construction of OpenAiCompletionProvider.callApi. -/
def completionRequestBody (env : Env) (st : OpenAiProviderState) (prompt : String) :
    CompletionRequestBody :=
  { model := st.modelName
    prompt := prompt
    max_tokens := jsEnvOr env.OPENAI_MAX_TOKENS 1024
    temperature := jsEnvOr env.OPENAI_TEMPERATURE 0 }

/-- Messages value of OpenAiChatCompletionProvider.callApi: JSON.parse of the
prompt, falling back on parse failure to a single user turn holding the raw
prompt string. -/
def chatMessages (prompt : String) : JsVal :=
  match jsonParse prompt with
  | some v => v
  | none => .arr (.cons (.obj (.cons "role" (.str "user") (.cons "content" (.str prompt) .nil))) .nil)

/-- Request body the chat variant posts (body literal in
OpenAiChatCompletionProvider.callApi).  Note the source reads
OPENAI_MAX_TEMPERATURE here, not OPENAI_TEMPERATURE. -/
structure ChatRequestBody where
  model : String
  messages : JsVal
  max_tokens : JsStrNum
  temperature : JsStrNum

/-- Body construction of OpenAiChatCompletionProvider.callApi. -/
def chatRequestBody (env : Env) (st : OpenAiProviderState) (prompt : String) :
    ChatRequestBody :=
  { model := st.modelName
    messages := chatMessages prompt
    max_tokens := jsEnvOr env.OPENAI_MAX_TOKENS 1024
    temperature := jsEnvOr env.OPENAI_MAX_TEMPERATURE 0 }

/-- Token usage sub-record of a success response; each count is the response
field value, absent when the body lacks it. -/
structure TokenUsage where
  total : Option JsVal
  prompt : Option JsVal
  completion : Option JsVal

/-- ProviderResponse value of types.ts as the two callApi implementations
build it: an optional error string, an optional output value, an optional
token-usage record. -/
structure ProviderResponse where
  error : Option String
  output : Option JsVal
  tokenUsage : Option TokenUsage

/-- JavaScript member access x.k where x may be undefined: throws a TypeError
on undefined and null, yields the field on objects, undefined otherwise. -/
def jsMember (x : Option JsVal) (k : String) : Except String (Option JsVal) :=
  match x with
  | none => .error ("TypeError: Cannot read properties of undefined (reading " ++ k ++ ")")
  | some .null => .error ("TypeError: Cannot read properties of null (reading " ++ k ++ ")")
  | some (.obj fs) => .ok (fs.lookup k)
  | some _ => .ok none

/-- JavaScript index access x[0] where x may be undefined. -/
def jsIndexZero (x : Option JsVal) : Except String (Option JsVal) :=
  match x with
  | none => .error "TypeError: Cannot read properties of undefined (reading 0)"
  | some .null => .error "TypeError: Cannot read properties of null (reading 0)"
  | some (.arr (.cons h _)) => .ok (some h)
  | some _ => .ok none

/-- Success-extraction try block of OpenAiCompletionProvider.callApi: the
member chain data.choices[0].text and data.usage counts, any step on
undefined throwing into the catch. -/
def completionSuccess (data : JsVal) : Except String ProviderResponse :=
  match jsMember (some data) "choices" with
  | .error e => .error e
  | .ok choices =>
    match jsIndexZero choices with
    | .error e => .error e
    | .ok c0 =>
      match jsMember c0 "text" with
      | .error e => .error e
      | .ok text =>
        match jsMember (some data) "usage" with
        | .error e => .error e
        | .ok usage =>
          match jsMember usage "total_tokens" with
          | .error e => .error e
          | .ok total =>
            match jsMember usage "prompt_tokens" with
            | .error e => .error e
            | .ok promptTk =>
              match jsMember usage "completion_tokens" with
              | .error e => .error e
              | .ok completionTk =>
                .ok { error := none
                      output := text
                      tokenUsage := some { total := total, prompt := promptTk, completion := completionTk } }

/-- Success-extraction try block of OpenAiChatCompletionProvider.callApi: the
member chain data.choices[0].message.content and data.usage counts. -/
def chatSuccess (data : JsVal) : Except String ProviderResponse :=
  match jsMember (some data) "choices" with
  | .error e => .error e
  | .ok choices =>
    match jsIndexZero choices with
    | .error e => .error e
    | .ok c0 =>
      match jsMember c0 "message" with
      | .error e => .error e
      | .ok msg =>
        match jsMember msg "content" with
        | .error e => .error e
        | .ok content =>
          match jsMember (some data) "usage" with
          | .error e => .error e
          | .ok usage =>
            match jsMember usage "total_tokens" with
            | .error e => .error e
            | .ok total =>
              match jsMember usage "prompt_tokens" with
              | .error e => .error e
              | .ok promptTk =>
                match jsMember usage "completion_tokens" with
                | .error e => .error e
                | .ok completionTk =>
                  .ok { error := none
                        output := content
                        tokenUsage := some { total := total, prompt := promptTk, completion := completionTk } }

/-- Method callApi of OpenAiCompletionProvider.  The transport parameter is
the outcome of the first try block (fetchWithTimeout plus response.json): on
its failure the catch returns the API-call-error result; on success the second
try block extracts the success result, its own catch embedding both the
thrown error and the serialized response body. -/
def OpenAiCompletionProvider.callApi (env : Env) (st : OpenAiProviderState)
    (transport : Except String JsVal) (prompt : String) : ProviderResponse :=
  match transport with
  | .error err => { error := some ("API call error: " ++ err), output := none, tokenUsage := none }
  | .ok data =>
    match completionSuccess data with
    | .ok r => r
    | .error e =>
      { error := some ("API response error: " ++ e ++ ": " ++ jsonStringify data)
        output := none
        tokenUsage := none }

/-- Method callApi of OpenAiChatCompletionProvider, analogous to the
completion variant (the request body uses chatMessages of the prompt). -/
def OpenAiChatCompletionProvider.callApi (env : Env) (st : OpenAiProviderState)
    (transport : Except String JsVal) (prompt : String) : ProviderResponse :=
  match transport with
  | .error err => { error := some ("API call error: " ++ err), output := none, tokenUsage := none }
  | .ok data =>
    match chatSuccess data with
    | .ok r => r
    | .error e =>
      { error := some ("API response error: " ++ e ++ ": " ++ jsonStringify data)
        output := none
        tokenUsage := none }

/-- Canonical prompt pair built by the normalizer in evaluate (index.ts). -/
structure PromptEntry where
  raw : String
  display : String
deriving DecidableEq

/-- Function isOpenAIMessagesObjects of index.ts, on an array input: every
element satisfies typeof element === "object", element !== null and
!Array.isArray(element). -/
def isOpenAIMessagesObjects (xs : List JsVal) : Bool :=
  xs.all fun element =>
    jsTypeof element == "object"
      && !(match element with | .null => true | _ => false)
      && !(match element with | .arr _ => true | _ => false)

/-- Prompts field computation of constructedTestSuite in evaluate (index.ts
lines 28-43): one serialized entry for an all-objects collection, otherwise an
element-wise map passing strings through and serializing the rest. -/
def normalizePrompts (prompts : List JsVal) : List PromptEntry :=
  if isOpenAIMessagesObjects prompts then
    [{ raw := jsonStringify (.arr (listToJsArr prompts))
       display := jsonStringify (.arr (listToJsArr prompts)) }]
  else
    prompts.map fun promptContent =>
      match promptContent with
      | .str s => { raw := s, display := s }
      | p => { raw := jsonStringify p, display := jsonStringify p }

/-- A provider field value as the nested resolver inspects it: a string
specification, a plain configuration object, or an already-resolved callable
adapter (a function value). -/
inductive ProviderSpecVal where
  | str (s : String)
  | objSpec (fields : JsFields)
  | func (adapter : ApiProvider)

/-- Result of the typeof operator on a provider field value. -/
def jsTypeofSpec : ProviderSpecVal → String
  | .str _ => "string"
  | .objSpec _ => "object"
  | .func _ => "function"

/-- JavaScript truthiness of a provider field value. -/
def jsTruthySpec : ProviderSpecVal → Bool
  | .str s => s != ""
  | .objSpec _ => true
  | .func _ => true

/-- Outcome of calling loadApiProvider with a non-string argument, as the
test-options branch of the nested resolver does: providerPath?.startsWith is
undefined for objects and functions, so calling it throws a TypeError. -/
def loadApiProviderDyn (env : Env) (modules : String → Except String ApiProvider) :
    ProviderSpecVal → Except String (List String × ApiProvider)
  | .str s => loadApiProvider env modules s
  | _ => .error "TypeError: providerPath.startsWith is not a function"

/-- Resolution of an object-shaped assertion provider (index.ts lines 55-57):
invariant requires a truthy casted.id (tiny-invariant throws with the
Invariant failed prefix), then loadApiProvider is called with that id; the
second argument of that call is dropped because loadApiProvider declares a
single parameter. -/
def resolveProviderObject (env : Env) (modules : String → Except String ApiProvider)
    (fields : JsFields) : Except String ApiProvider :=
  match fields.lookup "id" with
  | some idVal =>
    if jsTruthy idVal then
      match idVal with
      | .str i => (loadApiProvider env modules i).map Prod.snd
      | _ => .error "TypeError: providerPath.startsWith is not a function"
    else .error "Invariant failed: Provider object must have an id"
  | none => .error "Invariant failed: Provider object must have an id"

/-- An assertion of a test case: only its optional provider override is
relevant to the resolver. -/
structure Assertion where
  provider : Option ProviderSpecVal
deriving Inhabited

/-- Per-assertion branch of the nested resolver (index.ts lines 53-63): a
truthy object provider goes through the invariant and the loader, a truthy
string provider goes through the loader, a function provider is left
untouched. -/
def resolveAssertionProvider (env : Env) (modules : String → Except String ApiProvider)
    (a : Assertion) : Except String Assertion :=
  match a.provider with
  | some p =>
    if jsTruthySpec p then
      if jsTypeofSpec p == "object" then
        match p with
        | .objSpec fields =>
          (resolveProviderObject env modules fields).map fun ap => { provider := some (.func ap) }
        | _ => pure a
      else if jsTypeofSpec p == "string" then
        match p with
        | .str s =>
          (loadApiProvider env modules s).map
            fun (wa : List String × ApiProvider) => { provider := some (.func wa.2) }
        | _ => pure a
      else pure a
    else pure a
  | none => pure a

/-- Options record of a test case: only its optional provider override is
relevant to the resolver. -/
structure TestOptions where
  provider : Option ProviderSpecVal

/-- A loaded test case: optional options with a provider override, plus an
optional assertion list. -/
structure TestCase where
  options : Option TestOptions
  assert : Option (List Assertion)

/-- Nested-resolver work on one test (index.ts lines 47-64): the guard on
test.options.provider is typeof === "function", in which case the value is
handed to loadApiProvider; then each assertion is resolved in order. -/
def resolveTestCaseProviders (env : Env) (modules : String → Except String ApiProvider)
    (test : TestCase) : Except String TestCase :=
  match
    (match test.options with
     | some o =>
       (match o.provider with
        | some p =>
          if jsTruthySpec p && (jsTypeofSpec p == "function") then
            (loadApiProviderDyn env modules p).map
              fun (wa : List String × ApiProvider) =>
                some ({ provider := some (.func wa.2) } : TestOptions)
          else pure (some o)
        | none => pure (some o))
     | none => pure none)
  with
  | .error e => .error e
  | .ok options =>
    match
      (match test.assert with
       | some assertions => (assertions.mapM (resolveAssertionProvider env modules)).map some
       | none => pure none)
    with
    | .error e => .error e
    | .ok assert => .ok { options := options, assert := assert }

/-- Nested Provider Resolver loop of evaluate, over the loaded test list in
declaration order. -/
def resolveNestedProviders (env : Env) (modules : String → Except String ApiProvider)
    (tests : List TestCase) : Except String (List TestCase) :=
  tests.mapM (resolveTestCaseProviders env modules)

/-- Tail of evaluate after the Evaluation Engine returned ret (index.ts lines
75-90).  Modelled from the spec: the external collaborators writeOutput,
writeMultipleOutputs and writeLatestResults (util.ts, not part of this
source tree) are synchronous calls whose outcome each Except parameter gives,
and telemetry.send is awaited, so any of their failures propagates here; the
outputPath argument carries the string form or the array form when truthy. -/
def evaluateTail {α : Type} (outputPath : Option (Sum String (List String)))
    (writeLatest : Bool)
    (writeOutputResult writeMultipleResult writeLatestResult sendResult : Except String Unit)
    (ret : α) : Except String α :=
  match
    (match outputPath with
     | some (.inl _) => writeOutputResult
     | some (.inr _) => writeMultipleResult
     | none => .ok ())
  with
  | .error e => .error e
  | .ok _ =>
    match (if writeLatest then writeLatestResult else .ok ()) with
    | .error e => .error e
    | .ok _ =>
      match sendResult with
      | .error e => .error e
      | .ok _ => .ok ret

/-- Fixture environment for concrete evaluations: only the API key is set. -/
def envT : Env :=
  { OPENAI_API_KEY := some "test-key"
    OPENAI_API_HOST := none
    OPENAI_MAX_TOKENS := none
    OPENAI_TEMPERATURE := none
    OPENAI_MAX_TEMPERATURE := none }

/-- Fixture module loader for concrete evaluations: every dynamic import
fails, as when no module exists at the given path. -/
def modulesT : String → Except String ApiProvider :=
  fun p => .error ("Cannot find module " ++ p)

/-- C1: the claim says string override providers of a test are replaced by
loaded adapters and callable ones are left untouched; the code does the
opposite, because the guard on test.options.provider is
typeof === "function".  At a test whose override is the string
"openai:chat:gpt-4" the resolver returns the test unchanged, the provider
still a string; at a test whose override is an already-resolved callable the
resolver hands the function to loadApiProvider, which throws a TypeError when
it calls startsWith on it. -/
theorem claim_C1 :
    resolveNestedProviders envT modulesT
        [{ options := some { provider := some (.str "openai:chat:gpt-4") }, assert := none }]
      = .ok [{ options := some { provider := some (.str "openai:chat:gpt-4") }, assert := none }]
    ∧ resolveNestedProviders envT modulesT
        [{ options := some { provider := some (.func (.custom "already-resolved")) }, assert := none }]
      = .error "TypeError: providerPath.startsWith is not a function" :=
  ⟨rfl, rfl⟩

/-- C2 counterexample: with no output path, no latest-results request, and a
telemetry flush that fails, evaluate propagates the telemetry error and the
already-computed engine result 7 is discarded, contradicting the claim that a
failure in the later steps never discards the result. -/
theorem claim_C2_counterexample :
    evaluateTail none false (Except.ok ()) (Except.ok ()) (Except.ok ()) (Except.error "telemetry send failed") (7 : Nat)
      = Except.error "telemetry send failed" := rfl

/-- C2 amended: evaluate returns the Evaluation Engine result unchanged when
every post-run step succeeds, but a failure of the awaited telemetry flush
(or a synchronous throw of an output-writing step) propagates out of evaluate
and the result is discarded: there is no protection around steps 7 to 9. -/
theorem claim_C2 (outputPath : Option (Sum String (List String))) (writeLatest : Bool)
    (wOut wMulti wLatest send : Except String Unit) (ret : Nat) :
    ((match outputPath with
      | some (.inl _) => wOut
      | some (.inr _) => wMulti
      | none => Except.ok ()) = Except.ok () →
     (writeLatest = true → wLatest = Except.ok ()) →
     send = Except.ok () →
     evaluateTail outputPath writeLatest wOut wMulti wLatest send ret = Except.ok ret)
    ∧ (∀ e, send = Except.error e →
       ∀ r, evaluateTail outputPath writeLatest wOut wMulti wLatest send ret ≠ Except.ok r) := by
  constructor
  · intro h1 h2 h3
    unfold evaluateTail
    rw [h1]
    have hw : (if writeLatest then wLatest else Except.ok ()) = Except.ok () := by
      cases writeLatest with
      | false => rfl
      | true => simpa using h2 rfl
    rw [hw, h3]
  · intro e he r
    unfold evaluateTail
    cases hx : (match outputPath with
      | some (.inl _) => wOut
      | some (.inr _) => wMulti
      | none => Except.ok ()) with
    | error e1 => simp
    | ok u =>
      cases hy : (if writeLatest then wLatest else Except.ok ()) with
      | error e2 => simp
      | ok v => simp [he]

/-- C2 witness: at a concrete string output path with all steps succeeding
the result is returned; at the same inputs with a failing telemetry flush it
is not. -/
theorem claim_C2_witness :
    evaluateTail (some (Sum.inl "out.json")) true (Except.ok ()) (Except.ok ()) (Except.ok ())
        (Except.ok ()) (5 : Nat) = Except.ok 5
    ∧ evaluateTail (some (Sum.inl "out.json")) true (Except.ok ()) (Except.ok ()) (Except.ok ())
        (Except.error "flush failed") (5 : Nat) ≠ Except.ok 5 := by
  constructor
  · exact (claim_C2 (some (Sum.inl "out.json")) true (Except.ok ()) (Except.ok ()) (Except.ok ())
      (Except.ok ()) 5).1 rfl (fun _ => rfl) rfl
  · exact fun h => (claim_C2 (some (Sum.inl "out.json")) true (Except.ok ()) (Except.ok ())
      (Except.ok ()) (Except.error "flush failed") 5).2 "flush failed" rfl 5 h

/-- Fixture environment with the process-wide temperature configuration set
to 0.7 and everything else as in envT. -/
def envC3 : Env := { envT with OPENAI_TEMPERATURE := some "0.7" }

/-- C3: the claim says both variants take their payload temperature from the
process-wide temperature configuration; with OPENAI_TEMPERATURE set to 0.7
the completion body carries 0.7 but the chat body still carries the default
0, because the chat variant reads the misspelled OPENAI_MAX_TEMPERATURE
variable.  The max-output-size half of the claim holds for both variants. -/
theorem claim_C3 :
    (completionRequestBody envC3 { modelName := "text-davinci-003", apiKey := "test-key", apiHost := "api.openai.com" } "p").temperature
      = JsStrNum.s "0.7"
    ∧ (chatRequestBody envC3 { modelName := "gpt-4", apiKey := "test-key", apiHost := "api.openai.com" } "p").temperature
      = JsStrNum.n 0
    ∧ (completionRequestBody envC3 { modelName := "text-davinci-003", apiKey := "test-key", apiHost := "api.openai.com" } "p").max_tokens
      = JsStrNum.n 1024
    ∧ (chatRequestBody envC3 { modelName := "gpt-4", apiKey := "test-key", apiHost := "api.openai.com" } "p").max_tokens
      = JsStrNum.n 1024
    ∧ (completionRequestBody { envC3 with OPENAI_MAX_TOKENS := some "2048" } { modelName := "text-davinci-003", apiKey := "test-key", apiHost := "api.openai.com" } "p").max_tokens
      = JsStrNum.s "2048"
    ∧ (chatRequestBody { envC3 with OPENAI_MAX_TOKENS := some "2048" } { modelName := "gpt-4", apiKey := "test-key", apiHost := "api.openai.com" } "p").max_tokens
      = JsStrNum.s "2048" :=
  ⟨rfl, rfl, rfl, rfl, rfl, rfl⟩

/-- C10: on the empty prompt collection the every-element test is vacuously
true, so normalization takes the single-structured-prompt branch and yields
exactly one entry whose raw and display are the serialization of the empty
array, not an empty entry list. -/
theorem claim_C10 :
    normalizePrompts [] = [{ raw := "[]", display := "[]" }]
    ∧ isOpenAIMessagesObjects [] = true :=
  ⟨rfl, rfl⟩

/-- The per-element check of isOpenAIMessagesObjects coincides with the plain
description: the element is a non-array, non-null object value. -/
theorem msgElemCheck_eq (e : JsVal) :
    (jsTypeof e == "object"
      && !(match e with | JsVal.null => true | _ => false)
      && !(match e with | JsVal.arr _ => true | _ => false))
    = (match e with | JsVal.obj _ => true | _ => false) := by
  cases e <;> rfl

/-- isOpenAIMessagesObjects tests exactly that every element is a plain
object. -/
theorem isOpenAIMessagesObjects_eq_all (xs : List JsVal) :
    isOpenAIMessagesObjects xs
      = xs.all fun e => match e with | JsVal.obj _ => true | _ => false := by
  unfold isOpenAIMessagesObjects
  induction xs with
  | nil => rfl
  | cons v t ih => rw [List.all_cons, List.all_cons, msgElemCheck_eq v, ih]

/-- C6: when every element of the prompt collection is a non-array object the
normalizer produces exactly one entry whose raw and display are the
serialization of the whole collection; otherwise each element maps
independently, strings passing through and other values being serialized.
Concretely, a two-string collection gives two entries and a two-object
collection gives exactly one. -/
theorem claim_C6 (prompts : List JsVal) :
    ((prompts.all fun e => match e with | JsVal.obj _ => true | _ => false) = true →
      normalizePrompts prompts
        = [{ raw := jsonStringify (.arr (listToJsArr prompts))
             display := jsonStringify (.arr (listToJsArr prompts)) }])
    ∧ ((prompts.all fun e => match e with | JsVal.obj _ => true | _ => false) = false →
      normalizePrompts prompts
        = prompts.map fun promptContent =>
            match promptContent with
            | .str s => { raw := s, display := s }
            | p => { raw := jsonStringify p, display := jsonStringify p })
    ∧ normalizePrompts [.str "a", .str "b"]
        = [{ raw := "a", display := "a" }, { raw := "b", display := "b" }]
    ∧ (normalizePrompts [.obj (.cons "a" (.num 1) .nil), .obj (.cons "b" (.num 2) .nil)]).length = 1 := by
  refine ⟨?_, ?_, rfl, rfl⟩
  · intro h
    unfold normalizePrompts
    rw [isOpenAIMessagesObjects_eq_all, h]
    rfl
  · intro h
    unfold normalizePrompts
    rw [isOpenAIMessagesObjects_eq_all, h]
    rfl

/-- C6 witness: a single-element collection holding one object is normalized
into exactly one entry carrying the serialization of the whole collection. -/
theorem claim_C6_witness :
    normalizePrompts [.obj (.cons "role" (.str "user") (.cons "content" (.str "hi") .nil))]
      = [{ raw := jsonStringify (.arr (listToJsArr [.obj (.cons "role" (.str "user") (.cons "content" (.str "hi") .nil))]))
           display := jsonStringify (.arr (listToJsArr [.obj (.cons "role" (.str "user") (.cons "content" (.str "hi") .nil))])) }] :=
  (claim_C6 [.obj (.cons "role" (.str "user") (.cons "content" (.str "hi") .nil))]).1 rfl

/-- Check that object fields form one role/content turn, written from the
claim words, not from the source. -/
def specTurnFields (fs : JsFields) : Bool :=
  (match fs.lookup "role" with | some (.str _) => true | _ => false)
    && (match fs.lookup "content" with | some (.str _) => true | _ => false)

/-- Every element of the array is a role/content turn object, written from
the claim words, not from the source. -/
def specTurnsArr : JsArr → Bool
  | .nil => true
  | .cons (.obj fs) tl => specTurnFields fs && specTurnsArr tl
  | .cons _ _ => false

/-- A value is valid role/content turn data, written from the claim words,
not from the source: an array of objects each carrying string role and
content fields. -/
def isRoleContentTurns : JsVal → Bool
  | .arr xs => specTurnsArr xs
  | _ => false

/-- C7 counterexample: the prompt "42" is not valid serialized role/content
turn data (it parses to a bare number), yet the chat variant does not fall
back to the single synthetic user turn the claim requires: JSON.parse
succeeds, so the message list becomes the number 42. -/
theorem claim_C7_counterexample :
    jsonParse "42" = some (JsVal.num 42)
    ∧ isRoleContentTurns (JsVal.num 42) = false
    ∧ chatMessages "42" = JsVal.num 42
    ∧ chatMessages "42"
        ≠ .arr (.cons (.obj (.cons "role" (.str "user") (.cons "content" (.str "42") .nil))) .nil) := by
  refine ⟨rfl, rfl, rfl, fun h => ?_⟩
  rw [show chatMessages "42" = JsVal.num 42 from rfl] at h
  exact JsVal.noConfusion h

/-- C7 amended: the chat variant puts the parsed JSON value into the message
list whenever the prompt is valid JSON text, whatever its shape — in
particular valid serialized turn data yields the parsed turns — and only when
JSON parsing fails does the message list become exactly one user turn holding
the raw prompt string, silently. -/
theorem claim_C7 (prompt : String) :
    (∀ v, jsonParse prompt = some v → chatMessages prompt = v)
    ∧ (jsonParse prompt = none →
      chatMessages prompt
        = .arr (.cons (.obj (.cons "role" (.str "user") (.cons "content" (.str prompt) .nil))) .nil)) := by
  constructor
  · intro v hv
    unfold chatMessages
    rw [hv]
  · intro hn
    unfold chatMessages
    rw [hn]

/-- C7 witness: the plain-text prompt falls back to one user turn, and a
serialized turn list parses to exactly those turns. -/
theorem claim_C7_witness :
    chatMessages "Say hi"
      = .arr (.cons (.obj (.cons "role" (.str "user") (.cons "content" (.str "Say hi") .nil))) .nil)
    ∧ chatMessages "[\x7b\"role\":\"user\",\"content\":\"hi\"\x7d]"
      = .arr (.cons (.obj (.cons "role" (.str "user") (.cons "content" (.str "hi") .nil))) .nil) := by
  constructor
  · exact (claim_C7 "Say hi").2 rfl
  · exact (claim_C7 "[\x7b\"role\":\"user\",\"content\":\"hi\"\x7d]").1
      (.arr (.cons (.obj (.cons "role" (.str "user") (.cons "content" (.str "hi") .nil))) .nil)) rfl

/-- When the completion extraction succeeds, the returned response carries no
error and always a token-usage record. -/
theorem completionSuccess_ok_shape (data : JsVal) (r : ProviderResponse)
    (h : completionSuccess data = .ok r) :
    r.error = none ∧ ∃ tu, r.tokenUsage = some tu := by
  unfold completionSuccess at h
  repeat' split at h
  all_goals first
    | exact Except.noConfusion h
    | (injection h with h2
       subst h2
       exact ⟨rfl, _, rfl⟩)

/-- When the chat extraction succeeds, the returned response carries no error
and always a token-usage record. -/
theorem chatSuccess_ok_shape (data : JsVal) (r : ProviderResponse)
    (h : chatSuccess data = .ok r) :
    r.error = none ∧ ∃ tu, r.tokenUsage = some tu := by
  unfold chatSuccess at h
  repeat' split at h
  all_goals first
    | exact Except.noConfusion h
    | (injection h with h2
       subst h2
       exact ⟨rfl, _, rfl⟩)

/-- C8: neither variant ever throws — callApi is a total function into
ProviderResponse — and on a transport failure the result is exactly the
failure value embedding the underlying error text; on a transport success,
whenever the body defeats the extraction (completionSuccess or chatSuccess
throws) the result is exactly the failure value embedding both the thrown
error and the serialized response body, and whenever the extraction succeeds
the result is that success, which carries no error. -/
theorem claim_C8 (env : Env) (st : OpenAiProviderState) (transport : Except String JsVal)
    (prompt : String) :
    (∀ err, transport = .error err →
      OpenAiCompletionProvider.callApi env st transport prompt
          = { error := some ("API call error: " ++ err), output := none, tokenUsage := none }
        ∧ OpenAiChatCompletionProvider.callApi env st transport prompt
          = { error := some ("API call error: " ++ err), output := none, tokenUsage := none })
    ∧ (∀ data, transport = .ok data →
        (∀ e, completionSuccess data = .error e →
          OpenAiCompletionProvider.callApi env st transport prompt
            = { error := some ("API response error: " ++ e ++ ": " ++ jsonStringify data)
                output := none
                tokenUsage := none })
        ∧ (∀ r, completionSuccess data = .ok r →
          OpenAiCompletionProvider.callApi env st transport prompt = r ∧ r.error = none)
        ∧ (∀ e, chatSuccess data = .error e →
          OpenAiChatCompletionProvider.callApi env st transport prompt
            = { error := some ("API response error: " ++ e ++ ": " ++ jsonStringify data)
                output := none
                tokenUsage := none })
        ∧ (∀ r, chatSuccess data = .ok r →
          OpenAiChatCompletionProvider.callApi env st transport prompt = r ∧ r.error = none)) := by
  constructor
  · intro err he
    subst he
    exact ⟨rfl, rfl⟩
  · intro data hd
    subst hd
    refine ⟨?_, ?_, ?_, ?_⟩
    · intro e he
      simp only [OpenAiCompletionProvider.callApi, he]
    · intro r hr
      refine ⟨?_, (completionSuccess_ok_shape data r hr).1⟩
      simp only [OpenAiCompletionProvider.callApi, hr]
    · intro e he
      simp only [OpenAiChatCompletionProvider.callApi, he]
    · intro r hr
      refine ⟨?_, (chatSuccess_ok_shape data r hr).1⟩
      simp only [OpenAiChatCompletionProvider.callApi, hr]

/-- C8 witness: a concrete transport failure is returned as exactly the
failure value embedding the error text, and the concrete malformed body with
empty choices is returned as exactly the failure value embedding the thrown
TypeError and the serialized body. -/
theorem claim_C8_witness :
    OpenAiCompletionProvider.callApi envT
        { modelName := "text-davinci-003", apiKey := "test-key", apiHost := "api.openai.com" }
        (.error "connect ECONNREFUSED") "p"
      = { error := some "API call error: connect ECONNREFUSED", output := none, tokenUsage := none }
    ∧ OpenAiChatCompletionProvider.callApi envT
        { modelName := "gpt-4", apiKey := "test-key", apiHost := "api.openai.com" }
        (.ok (.obj (.cons "choices" (.arr .nil) .nil))) "p"
      = { error := some ("API response error: "
            ++ "TypeError: Cannot read properties of undefined (reading message)" ++ ": "
            ++ jsonStringify (.obj (.cons "choices" (.arr .nil) .nil)))
          output := none
          tokenUsage := none } := by
  constructor
  · exact ((claim_C8 envT
      { modelName := "text-davinci-003", apiKey := "test-key", apiHost := "api.openai.com" }
      (.error "connect ECONNREFUSED") "p").1 "connect ECONNREFUSED" rfl).1
  · exact ((claim_C8 envT
      { modelName := "gpt-4", apiKey := "test-key", apiHost := "api.openai.com" }
      (.ok (.obj (.cons "choices" (.arr .nil) .nil))) "p").2
      (.obj (.cons "choices" (.arr .nil) .nil)) rfl).2.2.1
      "TypeError: Cannot read properties of undefined (reading message)" rfl

/-- C9 counterexample: for the response body whose choices hold one empty
object and whose usage is an empty object, the completion callApi returns a
response populating neither side: no error string, no output string (the
output field is absent), and a token-usage record of three absent counts —
refuting the claim that exactly one side is populated for every possible
response body. -/
theorem claim_C9_counterexample :
    (OpenAiCompletionProvider.callApi envT
        { modelName := "text-davinci-003", apiKey := "test-key", apiHost := "api.openai.com" }
        (.ok (.obj (.cons "choices" (.arr (.cons (.obj .nil) .nil)) (.cons "usage" (.obj .nil) .nil)))) "p").error
      = none
    ∧ (OpenAiCompletionProvider.callApi envT
        { modelName := "text-davinci-003", apiKey := "test-key", apiHost := "api.openai.com" }
        (.ok (.obj (.cons "choices" (.arr (.cons (.obj .nil) .nil)) (.cons "usage" (.obj .nil) .nil)))) "p").output
      = none
    ∧ (OpenAiCompletionProvider.callApi envT
        { modelName := "text-davinci-003", apiKey := "test-key", apiHost := "api.openai.com" }
        (.ok (.obj (.cons "choices" (.arr (.cons (.obj .nil) .nil)) (.cons "usage" (.obj .nil) .nil)))) "p").tokenUsage
      = some { total := none, prompt := none, completion := none } :=
  ⟨rfl, rfl, rfl⟩

/-- C9 amended: both variants never populate both sides — an error implies no
output and no token usage — and an errorless result always carries a
token-usage record; but the output field of an errorless result can be absent
(when choices[0] lacks the text or message.content field), so the
never-neither half of the claim fails for such bodies. -/
theorem claim_C9 (env : Env) (st : OpenAiProviderState) (transport : Except String JsVal)
    (prompt : String) :
    ((OpenAiCompletionProvider.callApi env st transport prompt).error.isSome = true →
      (OpenAiCompletionProvider.callApi env st transport prompt).output = none
        ∧ (OpenAiCompletionProvider.callApi env st transport prompt).tokenUsage = none)
    ∧ ((OpenAiCompletionProvider.callApi env st transport prompt).error = none →
      (OpenAiCompletionProvider.callApi env st transport prompt).tokenUsage.isSome = true)
    ∧ ((OpenAiChatCompletionProvider.callApi env st transport prompt).error.isSome = true →
      (OpenAiChatCompletionProvider.callApi env st transport prompt).output = none
        ∧ (OpenAiChatCompletionProvider.callApi env st transport prompt).tokenUsage = none)
    ∧ ((OpenAiChatCompletionProvider.callApi env st transport prompt).error = none →
      (OpenAiChatCompletionProvider.callApi env st transport prompt).tokenUsage.isSome = true) := by
  cases transport with
  | error err =>
    refine ⟨fun _ => ⟨rfl, rfl⟩, fun h => ?_, fun _ => ⟨rfl, rfl⟩, fun h => ?_⟩
    · exact Option.noConfusion h
    · exact Option.noConfusion h
  | ok data =>
    refine ⟨?_, ?_, ?_, ?_⟩
    · cases hx : completionSuccess data with
      | ok r =>
        intro h
        obtain ⟨he, tu, htu⟩ := completionSuccess_ok_shape data r hx
        simp only [OpenAiCompletionProvider.callApi, hx, he] at h
        exact Bool.noConfusion h
      | error e =>
        intro _
        simp [OpenAiCompletionProvider.callApi, hx]
    · cases hx : completionSuccess data with
      | ok r =>
        intro _
        obtain ⟨he, tu, htu⟩ := completionSuccess_ok_shape data r hx
        simp only [OpenAiCompletionProvider.callApi, hx, htu]
        rfl
      | error e =>
        intro h
        simp only [OpenAiCompletionProvider.callApi, hx] at h
        exact Option.noConfusion h
    · cases hx : chatSuccess data with
      | ok r =>
        intro h
        obtain ⟨he, tu, htu⟩ := chatSuccess_ok_shape data r hx
        simp only [OpenAiChatCompletionProvider.callApi, hx, he] at h
        exact Bool.noConfusion h
      | error e =>
        intro _
        simp [OpenAiChatCompletionProvider.callApi, hx]
    · cases hx : chatSuccess data with
      | ok r =>
        intro _
        obtain ⟨he, tu, htu⟩ := chatSuccess_ok_shape data r hx
        simp only [OpenAiChatCompletionProvider.callApi, hx, htu]
        rfl
      | error e =>
        intro h
        simp only [OpenAiChatCompletionProvider.callApi, hx] at h
        exact Option.noConfusion h

/-- C9 witness: at the body with an empty-object choice and empty usage the
errorless response still carries a token-usage record. -/
theorem claim_C9_witness :
    (OpenAiChatCompletionProvider.callApi envT
        { modelName := "gpt-4", apiKey := "test-key", apiHost := "api.openai.com" }
        (.ok (.obj (.cons "choices"
          (.arr (.cons (.obj (.cons "message" (.obj .nil) .nil)) .nil))
          (.cons "usage" (.obj .nil) .nil)))) "p").tokenUsage.isSome = true :=
  (claim_C9 envT
    { modelName := "gpt-4", apiKey := "test-key", apiHost := "api.openai.com" }
    (.ok (.obj (.cons "choices"
      (.arr (.cons (.obj (.cons "message" (.obj .nil) .nil)) .nil))
      (.cons "usage" (.obj .nil) .nil)))) "p").2.2.2 rfl

/-- Splitting a separator-free character list yields that list alone. -/
theorem splitChar_eq_of_no_sep (sep : Char) (l : List Char) (h : ∀ c ∈ l, c ≠ sep) :
    splitChar sep l = [l] := by
  induction l with
  | nil => rfl
  | cons c cs ih =>
    have hc : c ≠ sep := h c (List.mem_cons_self c cs)
    have ih2 := ih fun x hx => h x (List.mem_cons_of_mem c hx)
    simp [splitChar, hc, ih2]

/-- Splitting peels a separator-free segment before a separator off as the
first piece. -/
theorem splitChar_append_sep (sep : Char) (l r : List Char) (h : ∀ c ∈ l, c ≠ sep) :
    splitChar sep (l ++ sep :: r) = l :: splitChar sep r := by
  induction l with
  | nil => simp [splitChar]
  | cons c cs ih =>
    have hc : c ≠ sep := h c (List.mem_cons_self c cs)
    have ih2 := ih fun x hx => h x (List.mem_cons_of_mem c hx)
    simp [splitChar, hc, ih2]

/-- For a colon-free model name, the chat specification splits into its three
segments. -/
theorem jsSplit_openai_chat (md : List Char) (hc : ∀ c ∈ md, c ≠ ':') :
    jsSplit ':' ("openai:chat:" ++ String.mk md) = ["openai", "chat", String.mk md] := by
  have hdata : ("openai:chat:" ++ String.mk md).data
      = "openai".data ++ ':' :: ("chat".data ++ ':' :: md) := rfl
  unfold jsSplit
  rw [hdata, splitChar_append_sep ':' "openai".data _ (by decide),
    splitChar_append_sep ':' "chat".data _ (by decide),
    splitChar_eq_of_no_sep ':' md hc]
  rfl

/-- For a colon-free model name, the completion specification splits into its
three segments. -/
theorem jsSplit_openai_completion (md : List Char) (hc : ∀ c ∈ md, c ≠ ':') :
    jsSplit ':' ("openai:completion:" ++ String.mk md) = ["openai", "completion", String.mk md] := by
  have hdata : ("openai:completion:" ++ String.mk md).data
      = "openai".data ++ ':' :: ("completion".data ++ ':' :: md) := rfl
  unfold jsSplit
  rw [hdata, splitChar_append_sep ':' "openai".data _ (by decide),
    splitChar_append_sep ':' "completion".data _ (by decide),
    splitChar_eq_of_no_sep ':' md hc]
  rfl

/-- Loading an openai chat specification with any nonempty colon-free model
name and an available key constructs the chat family on exactly that name,
with the unknown-model warning and no exception. -/
theorem loadApiProvider_chat_ok (env : Env) (modules : String → Except String ApiProvider)
    (m : String) (hk : truthyOpt env.OPENAI_API_KEY = true) (hm : m ≠ "")
    (hc : ∀ c ∈ m.data, c ≠ ':') :
    ∃ st, loadApiProvider env modules ("openai:chat:" ++ m)
        = .ok ((if OpenAiChatCompletionProvider.OPENAI_CHAT_MODELS.contains m then []
                else ["Using unknown OpenAI chat model: " ++ m]), .openaiChat st)
      ∧ st.modelName = m := by
  obtain ⟨md⟩ := m
  have hsw : jsStartsWith "openai:" ("openai:chat:" ++ String.mk md) = true := rfl
  have hsplit := jsSplit_openai_chat md hc
  refine ⟨{ modelName := String.mk md
            apiKey := env.OPENAI_API_KEY.getD ""
            apiHost := if truthyOpt env.OPENAI_API_HOST then env.OPENAI_API_HOST.getD ""
                       else DEFAULT_OPENAI_HOST }, ?_, rfl⟩
  cases hek : env.OPENAI_API_KEY with
  | none =>
    rw [hek] at hk
    exact absurd hk (by decide)
  | some k =>
    have hkne : (k != "") = true := by rw [hek] at hk; exact hk
    simp [loadApiProvider, hsw, hsplit, jsOrDefault, hm, hek, hkne,
      OpenAiChatCompletionProvider.new, OpenAiGenericProvider.new, truthyOpt, Except.map]

/-- Loading an openai completion specification with any nonempty colon-free
model name and an available key constructs the completion family on exactly
that name, with the unknown-model warning and no exception. -/
theorem loadApiProvider_completion_ok (env : Env) (modules : String → Except String ApiProvider)
    (m : String) (hk : truthyOpt env.OPENAI_API_KEY = true) (hm : m ≠ "")
    (hc : ∀ c ∈ m.data, c ≠ ':') :
    ∃ st, loadApiProvider env modules ("openai:completion:" ++ m)
        = .ok ((if OpenAiCompletionProvider.OPENAI_COMPLETION_MODELS.contains m then []
                else ["Using unknown OpenAI completion model: " ++ m]), .openaiCompletion st)
      ∧ st.modelName = m := by
  obtain ⟨md⟩ := m
  have hsw : jsStartsWith "openai:" ("openai:completion:" ++ String.mk md) = true := rfl
  have hsplit := jsSplit_openai_completion md hc
  refine ⟨{ modelName := String.mk md
            apiKey := env.OPENAI_API_KEY.getD ""
            apiHost := if truthyOpt env.OPENAI_API_HOST then env.OPENAI_API_HOST.getD ""
                       else DEFAULT_OPENAI_HOST }, ?_, rfl⟩
  cases hek : env.OPENAI_API_KEY with
  | none =>
    rw [hek] at hk
    exact absurd hk (by decide)
  | some k =>
    have hkne : (k != "") = true := by rw [hek] at hk; exact hk
    simp [loadApiProvider, hsw, hsplit, jsOrDefault, hm, hek, hkne,
      OpenAiCompletionProvider.new, OpenAiGenericProvider.new, truthyOpt, Except.map]

/-- C4: for every nonempty colon-free model name m, with the API key
available, loading openai chat m or openai completion m succeeds, never
throwing: the unrecognized-name case only contributes the warning string, and
the returned adapter id is exactly openai prefixing m. -/
theorem claim_C4 (env : Env) (modules : String → Except String ApiProvider) (m : String)
    (hk : truthyOpt env.OPENAI_API_KEY = true) (hm : m ≠ "")
    (hc : ∀ c ∈ m.data, c ≠ ':') :
    (∃ st, loadApiProvider env modules ("openai:chat:" ++ m)
        = .ok ((if OpenAiChatCompletionProvider.OPENAI_CHAT_MODELS.contains m then []
                else ["Using unknown OpenAI chat model: " ++ m]), .openaiChat st)
      ∧ ApiProvider.id (.openaiChat st) = "openai:" ++ m)
    ∧ (∃ st, loadApiProvider env modules ("openai:completion:" ++ m)
        = .ok ((if OpenAiCompletionProvider.OPENAI_COMPLETION_MODELS.contains m then []
                else ["Using unknown OpenAI completion model: " ++ m]), .openaiCompletion st)
      ∧ ApiProvider.id (.openaiCompletion st) = "openai:" ++ m) := by
  constructor
  · obtain ⟨st, heq, hname⟩ := loadApiProvider_chat_ok env modules m hk hm hc
    exact ⟨st, heq, by simp [ApiProvider.id, OpenAiGenericProvider.id, hname]⟩
  · obtain ⟨st, heq, hname⟩ := loadApiProvider_completion_ok env modules m hk hm hc
    exact ⟨st, heq, by simp [ApiProvider.id, OpenAiGenericProvider.id, hname]⟩

/-- C4 witness: at the unrecognized model name my-model both loads succeed
with the warning logged and the expected adapter ids. -/
theorem claim_C4_witness :
    (∃ st, loadApiProvider envT modulesT ("openai:chat:" ++ "my-model")
        = .ok ((if OpenAiChatCompletionProvider.OPENAI_CHAT_MODELS.contains "my-model" then []
                else ["Using unknown OpenAI chat model: " ++ "my-model"]), .openaiChat st)
      ∧ ApiProvider.id (.openaiChat st) = "openai:" ++ "my-model")
    ∧ (∃ st, loadApiProvider envT modulesT ("openai:completion:" ++ "my-model")
        = .ok ((if OpenAiCompletionProvider.OPENAI_COMPLETION_MODELS.contains "my-model" then []
                else ["Using unknown OpenAI completion model: " ++ "my-model"]), .openaiCompletion st)
      ∧ ApiProvider.id (.openaiCompletion st) = "openai:" ++ "my-model") :=
  claim_C4 envT modulesT "my-model" rfl (by decide) (by decide)

/-- C5: an object-shaped assertion provider without an id, or with an empty
id, makes resolution fail fast with the descriptive invariant error; with a
nonempty string id whose load succeeds, the assertion provider is replaced by
exactly the adapter the Provider Loader derives from that identifier string,
so their ids coincide by construction. -/
theorem claim_C5 (env : Env) (modules : String → Except String ApiProvider)
    (fields : JsFields) (i : String) (w : List String) (p : ApiProvider) :
    (fields.lookup "id" = none →
      resolveAssertionProvider env modules { provider := some (.objSpec fields) }
        = .error "Invariant failed: Provider object must have an id")
    ∧ (fields.lookup "id" = some (.str "") →
      resolveAssertionProvider env modules { provider := some (.objSpec fields) }
        = .error "Invariant failed: Provider object must have an id")
    ∧ (fields.lookup "id" = some (.str i) → i ≠ "" →
      loadApiProvider env modules i = .ok (w, p) →
      resolveAssertionProvider env modules { provider := some (.objSpec fields) }
        = .ok { provider := some (.func p) }) := by
  have hre : resolveAssertionProvider env modules { provider := some (.objSpec fields) }
      = (resolveProviderObject env modules fields).map
          (fun ap => { provider := some (.func ap) }) := rfl
  refine ⟨?_, ?_, ?_⟩
  · intro h
    rw [hre]
    unfold resolveProviderObject
    rw [h]
    rfl
  · intro h
    rw [hre]
    unfold resolveProviderObject
    rw [h]
    rfl
  · intro h hi hl
    rw [hre]
    unfold resolveProviderObject
    rw [h]
    simp [jsTruthy, hi, hl, Except.map]

/-- C5 witness: a missing id fails with the invariant error, and a concrete
id resolves to the completion adapter that identifier derives. -/
theorem claim_C5_witness :
    resolveAssertionProvider envT modulesT { provider := some (.objSpec .nil) }
      = .error "Invariant failed: Provider object must have an id"
    ∧ resolveAssertionProvider envT modulesT
        { provider := some (.objSpec (.cons "id" (.str "openai:completion:text-davinci-003") .nil)) }
      = .ok { provider := some (.func (.openaiCompletion
          { modelName := "text-davinci-003", apiKey := "test-key", apiHost := "api.openai.com" })) } := by
  constructor
  · exact (claim_C5 envT modulesT .nil "" [] (.custom "x")).1 rfl
  · exact (claim_C5 envT modulesT (.cons "id" (.str "openai:completion:text-davinci-003") .nil)
      "openai:completion:text-davinci-003" []
      (.openaiCompletion { modelName := "text-davinci-003", apiKey := "test-key", apiHost := "api.openai.com" })).2.2
      rfl (by decide) rfl
